import Mathlib

/-!
Verification development for the `django-idempotency-key` middleware
(`idempotency_key/middleware.py`).

The middleware intercepts HTTP requests: non-safe requests must carry an
`Idempotency-Key` header; the key is encoded to a storage identity, prior
results are looked up, duplicates short-circuit with a configurable conflict
status, and successful (2xx) handler results are recorded.

The embedding below translates the middleware functions into pure Lean
functions.  Mutable per-request attributes become fields of a `Request`
record threaded through the phases; the pluggable key encoder becomes an
explicit function argument (the reference encoders depend on the request's
method and path, passed explicitly); the storage backend (whose module is
not part of the sources at hand) is modelled from the spec as an in-memory
association list with overwrite-on-store semantics.
-/

/-- An HTTP response: a status code plus an opaque payload identity. -/
structure Response where
  status_code : Nat
  content : String
deriving DecidableEq, Repr

/-- Route metadata attributes that may be attached to a view callback.
`none` models an absent attribute, mirroring Python's three-argument
`getattr` with a default. -/
structure Callback where
  idempotency_key_exempt : Option Bool
  idempotency_key_manual : Option Bool
  idempotency_key : Option Bool
deriving DecidableEq, Repr

/-- A request together with the per-request attributes the middleware sets.
`none` models an attribute (or META entry) that has not been set. -/
structure Request where
  method : String
  path : String
  meta_http_idempotency_key : Option String
  meta_idempotency_key : Option String
  idempotency_key_done : Option Bool
  idempotency_key_exempt : Option Bool
  idempotency_key_manual : Option Bool
  use_idempotency_key_manual_override : Option Bool
  idempotency_key_encoded_key : Option String
  idempotency_key_exists : Option Bool
  idempotency_key_response : Option (Option Response)
deriving DecidableEq, Repr

/-- An inbound request as produced by the framework, before any middleware
attribute has been set. -/
def mkRequest (method path : String) (header_key : Option String) : Request :=
  { method := method
    path := path
    meta_http_idempotency_key := header_key
    meta_idempotency_key := none
    idempotency_key_done := none
    idempotency_key_exempt := none
    idempotency_key_manual := none
    use_idempotency_key_manual_override := none
    idempotency_key_encoded_key := none
    idempotency_key_exists := none
    idempotency_key_response := none }

/-- The `IDEMPOTENCY_KEY` deployment settings that the middleware reads.
The outer `Option` models the `CONFLICT_STATUS_CODE` entry being absent;
`some none` models it being explicitly set to Python `None`. -/
structure Settings where
  CONFLICT_STATUS_CODE : Option (Option Nat)
deriving DecidableEq, Repr

/-- `_get_conflict_code`: the configured conflict status, defaulting to
409 CONFLICT when the setting is absent. -/
def get_conflict_code (settings : Settings) : Option Nat :=
  match settings.CONFLICT_STATUS_CODE with
  | some code => code
  | none => some 409

/-- The methods RFC 7231 defines as safe, as listed in the middleware. -/
def SAFE_METHODS : List String := ["GET", "HEAD", "OPTIONS", "TRACE"]

/-- Storage state.  Modelled from the spec: the storage module is not among
the sources at hand; the spec's in-memory reference backend is a mapping
from encoded key to recorded response, no eviction.  An association list
where `store` prepends and `retrieve` takes the first match gives the
required last-write-wins overwrite semantics. -/
abbrev Storage := List (String × Response)

/-- `retrieve_data`: existence flag plus the recorded response, absence
reported as `(false, none)`, never as an error. -/
def retrieve_data (storage : Storage) (encoded_key : String) : Bool × Option Response :=
  match List.lookup encoded_key storage with
  | some response => (true, some response)
  | none => (false, none)

/-- `store_data`: record a response under an encoded key (overwriting any
previous record for that key). -/
def store_data (storage : Storage) (encoded_key : String) (response : Response) : Storage :=
  (encoded_key, response) :: storage

/-- `rest_framework.exceptions.bad_request`: the framework's standard
400 BAD REQUEST response. -/
def bad_request (_request : Request) : Response :=
  { status_code := 400, content := "" }

/-- `IdempotencyKeyMiddleware._reject`: log and return the framework's
bad-request response. -/
def reject (request : Request) (_reason : String) : Response :=
  bad_request request

/-- `IdempotencyKeyMiddleware._set_flags_from_callback` (deny-by-default
mode): read the `idempotency_key_exempt` and `idempotency_key_manual`
attributes, both defaulting to `False` when absent.  Returns
(exempt flag, manual flag). -/
def set_flags_from_callback (callback : Callback) : Bool × Bool :=
  (callback.idempotency_key_exempt.getD false,
   callback.idempotency_key_manual.getD false)

/-- Python's `or` on an optional boolean left operand: `True or x` is
`True`; `False or x` and `None or x` are `x`. -/
def py_truthy_or (a : Option Bool) (b : Bool) : Bool :=
  match a with
  | some true => true
  | _ => b

/-- `ExemptIdempotencyKeyMiddleware._set_flags_from_callback`
(allow-by-default mode), mirroring
`exempt or (exempt is None and not manual and not key)`. -/
def exempt_set_flags_from_callback (callback : Callback) : Bool × Bool :=
  let idempotency_key := callback.idempotency_key.getD false
  let idempotency_key_exempt := callback.idempotency_key_exempt
  let idempotency_key_manual := callback.idempotency_key_manual.getD false
  (py_truthy_or idempotency_key_exempt
      (decide (idempotency_key_exempt = none) && !idempotency_key_manual &&
        !idempotency_key),
   idempotency_key_manual)

/-- `process_request`: copy the `HTTP_IDEMPOTENCY_KEY` header into
`META['IDEMPOTENCY_KEY']` and initialise the `idempotency_key_done`
marker to `False`. -/
def process_request (request : Request) : Request :=
  let request :=
    match request.meta_http_idempotency_key with
    | some key => { request with meta_idempotency_key := some key }
    | none => request
  { request with idempotency_key_done := some false }

/-- The conflict rewrite applied to a stored response on short-circuit:
rewrite its status code to the configured conflict code, or keep the
recorded status when the configured code is `None`. -/
def apply_conflict (settings : Settings) (stored : Response) : Response :=
  match get_conflict_code settings with
  | some status_code => { stored with status_code := status_code }
  | none => stored

/-- `process_view`, parameterised by the flag-resolution function (the one
method the two middleware classes override) and by the key encoder.
Returns the updated request and `some response` when the view is
short-circuited (rejection or conflict), `none` when the view proceeds. -/
def process_view (set_flags : Callback → Bool × Bool)
    (encode_key : String → String → String → String)
    (settings : Settings) (storage : Storage)
    (request : Request) (callback : Callback) :
    Request × Option Response :=
  let flags := set_flags callback
  let request := { request with
    idempotency_key_exempt := some flags.1
    idempotency_key_manual := some flags.2 }
  let request := { request with idempotency_key_done := some true }
  if request.idempotency_key_exempt = some true ∨ request.method ∈ SAFE_METHODS then
    ({ request with idempotency_key_exempt := some true }, none)
  else
    let request := { request with idempotency_key_exempt := some false }
    match request.meta_idempotency_key with
    | none =>
        (request,
         some (reject request "Idempotency key is required and was not specified in the header."))
    | some key =>
        let request :=
          if request.idempotency_key_manual = some true then
            { request with use_idempotency_key_manual_override := some true }
          else request
        let encoded_key := encode_key request.method request.path key
        let request := { request with idempotency_key_encoded_key := some encoded_key }
        let retrieved := retrieve_data storage encoded_key
        let key_exists := retrieved.1
        let response := retrieved.2
        let request := { request with
          idempotency_key_exists := some key_exists
          idempotency_key_response := some response }
        if request.idempotency_key_manual ≠ some true ∧ key_exists then
          match response with
          | some stored => (request, some (apply_conflict settings stored))
          | none => (request, none)
        else
          (request, none)

/-- The failures `process_response` can raise instead of returning:
the explicit `ImproperlyConfigured` guard, and the `AttributeError`
Python would raise if the encoded key attribute were missing at the
storage step. -/
inductive MiddlewareError where
  | improperly_configured
  | attribute_error
deriving DecidableEq, Repr

/-- `process_response`: raise if `process_view` never ran; pass exempt
requests through; for non-exempt, non-safe-method requests store the
response when its status is in 200..207. -/
def process_response (storage : Storage) (request : Request) (response : Response) :
    Except MiddlewareError (Storage × Response) :=
  if (request.idempotency_key_done.getD false) = false then
    .error .improperly_configured
  else if request.idempotency_key_exempt.getD true then
    .ok (storage, response)
  else if request.method ∉ SAFE_METHODS ∧
      200 ≤ response.status_code ∧ response.status_code ≤ 207 then
    match request.idempotency_key_encoded_key with
    | some encoded_key => .ok (store_data storage encoded_key response, response)
    | none => .error .attribute_error
  else
    .ok (storage, response)

/-- One full pass of a request through the middleware: `process_request`,
then `process_view` for the resolved callback, then the view itself when
not short-circuited, then `process_response`.  Returns the final storage
state, the outgoing response, and the request as the view saw it. -/
def middleware_call (set_flags : Callback → Bool × Bool)
    (encode_key : String → String → String → String)
    (settings : Settings) (storage : Storage) (callback : Callback)
    (get_response : Request → Response) (request : Request) :
    Except MiddlewareError (Storage × Response × Request) :=
  let request := process_request request
  let viewResult := process_view set_flags encode_key settings storage request callback
  let request := viewResult.1
  let response :=
    match viewResult.2 with
    | some response => response
    | none => get_response request
  match process_response storage request response with
  | .ok (storage2, response2) => .ok (storage2, response2, request)
  | .error e => .error e

/-- The storage component of a middleware outcome, with the incoming
storage unchanged when the middleware raised instead of responding. -/
def storage_after (outcome : Except MiddlewareError (Storage × Response × Request))
    (storage : Storage) : Storage :=
  match outcome with
  | .ok out => out.1
  | .error _ => storage

/-! ### SHA-256

The repository's default key encoder is specified as producing a SHA-256
hex digest.  The hash itself is standard; the implementation below follows
FIPS 180-4, on 32-bit words represented as `Nat` reduced modulo `2 ^ 32`.
-/

/-- Truncate to a 32-bit word. -/
def w32 (n : Nat) : Nat := n % 4294967296

/-- 32-bit right rotation. -/
def rotr (n x : Nat) : Nat := w32 ((x >>> n) ||| (x <<< (32 - n)))

def big_sigma0 (x : Nat) : Nat := rotr 2 x ^^^ rotr 13 x ^^^ rotr 22 x

def big_sigma1 (x : Nat) : Nat := rotr 6 x ^^^ rotr 11 x ^^^ rotr 25 x

def small_sigma0 (x : Nat) : Nat := rotr 7 x ^^^ rotr 18 x ^^^ (x >>> 3)

def small_sigma1 (x : Nat) : Nat := rotr 17 x ^^^ rotr 19 x ^^^ (x >>> 10)

def sha_ch (x y z : Nat) : Nat := (x &&& y) ^^^ ((x ^^^ 4294967295) &&& z)

def sha_maj (x y z : Nat) : Nat := (x &&& y) ^^^ (x &&& z) ^^^ (y &&& z)

/-- The SHA-256 round constants. -/
def SHA256_K : List Nat :=
  [1116352408, 1899447441, 3049323471, 3921009573, 961987163,
   1508970993, 2453635748, 2870763221, 3624381080, 310598401,
   607225278, 1426881987, 1925078388, 2162078206, 2614888103,
   3248222580, 3835390401, 4022224774, 264347078, 604807628,
   770255983, 1249150122, 1555081692, 1996064986, 2554220882,
   2821834349, 2952996808, 3210313671, 3336571891, 3584528711,
   113926993, 338241895, 666307205, 773529912, 1294757372,
   1396182291, 1695183700, 1986661051, 2177026350, 2456956037,
   2730485921, 2820302411, 3259730800, 3345764771, 3516065817,
   3600352804, 4094571909, 275423344, 430227734, 506948616,
   659060556, 883997877, 958139571, 1322822218, 1537002063,
   1747873779, 1955562222, 2024104815, 2227730452, 2361852424,
   2428436474, 2756734187, 3204031479, 3329325298]

/-- The SHA-256 initial hash value. -/
def SHA256_H0 : List Nat :=
  [1779033703, 3144134277, 1013904242, 2773480762, 1359893119,
   2600822924, 528734635, 1541459225]

/-- Big-endian byte decomposition of `n` into `k` bytes. -/
def toBytesBE (k n : Nat) : List Nat :=
  (List.range k).map (fun i => (n >>> (8 * (k - 1 - i))) % 256)

/-- Merkle-Damgård padding: a 1-bit, zeros to 56 mod 64 bytes, then the
bit length in 8 big-endian bytes. -/
def sha256_pad (msg : List Nat) : List Nat :=
  let zeros := (64 + 56 - ((msg.length + 1) % 64)) % 64
  msg ++ [128] ++ List.replicate zeros 0 ++ toBytesBE 8 (8 * msg.length)

/-- A 64-byte block as sixteen big-endian 32-bit words. -/
def bytesToWords (block : List Nat) : List Nat :=
  (List.range 16).map (fun i =>
    block.getD (4 * i) 0 * 16777216 + block.getD (4 * i + 1) 0 * 65536 +
      block.getD (4 * i + 2) 0 * 256 + block.getD (4 * i + 3) 0)

/-- Extend sixteen schedule words to sixty-four. -/
def message_schedule (w : List Nat) : List Nat :=
  (List.range 48).foldl
    (fun ws _ =>
      let i := ws.length
      ws ++ [w32 (small_sigma1 (ws.getD (i - 2) 0) + ws.getD (i - 7) 0 +
        small_sigma0 (ws.getD (i - 15) 0) + ws.getD (i - 16) 0)])
    w

/-- One SHA-256 round on the eight-word working state. -/
def round_step (state : List Nat) (wk : Nat × Nat) : List Nat :=
  let a := state.getD 0 0
  let b := state.getD 1 0
  let c := state.getD 2 0
  let d := state.getD 3 0
  let e := state.getD 4 0
  let f := state.getD 5 0
  let g := state.getD 6 0
  let h := state.getD 7 0
  let t1 := w32 (h + big_sigma1 e + sha_ch e f g + wk.2 + wk.1)
  let t2 := w32 (big_sigma0 a + sha_maj a b c)
  [w32 (t1 + t2), a, b, c, w32 (d + t1), e, f, g]

/-- Compress one 64-byte block into the hash state. -/
def sha256_compress (h : List Nat) (block : List Nat) : List Nat :=
  let ws := message_schedule (bytesToWords block)
  let final := (ws.zip SHA256_K).foldl round_step h
  List.zipWith (fun x y => w32 (x + y)) h final

/-- SHA-256 of a byte sequence. -/
def sha256_bytes (msg : List Nat) : List Nat :=
  let padded := sha256_pad msg
  let blocks := (List.range (padded.length / 64)).map
    (fun i => (padded.drop (64 * i)).take 64)
  let hh := blocks.foldl sha256_compress SHA256_H0
  (hh.map (toBytesBE 4)).flatten

/-- Lower-case hexadecimal digit. -/
def hexDigit (n : Nat) : Char :=
  if n < 10 then Char.ofNat (48 + n) else Char.ofNat (87 + n)

/-- Lower-case hexadecimal rendering of a byte sequence. -/
def toHex (bytes : List Nat) : String :=
  String.mk ((bytes.map (fun b => [hexDigit (b / 16), hexDigit (b % 16)])).flatten)

/-- The bytes of a string.  The keys and digests in this development are
ASCII, where the UTF-8 bytes are the code points. -/
def strBytes (s : String) : List Nat := s.data.map Char.toNat

/-- SHA-256 of a string, as a 64-character lower-case hex digest. -/
def sha256_hex (s : String) : String := toHex (sha256_bytes (strBytes s))

/-- Modelled from the spec: the default key encoder (`BasicKeyEncoder` of
`idempotency_key/encoders.py`, a module not among the sources at hand),
following the spec's words: a SHA-256 digest of the raw key alone,
hex-encoded, independent of the rest of the request. -/
def spec_basic_key_encoder (_method _path key : String) : String := sha256_hex key

/-- The encoded key `test_middleware_exempt.py` asserts for the
duplicate-request scenarios on `/create-voucher/` with `the_key`
(`request.idempotency_key_encoded_key` after a POST). -/
def test_encoded_key_create_voucher : String :=
  "562be6fe17ab443a60b287e022b42c40d57f74432e6c41f0fd0035558209d22e"

/-- The encoded key `test_middleware_exempt.py` asserts for the
manual-override scenario on `/create-voucher-manual/` with the same
`the_key`. -/
def test_encoded_key_create_voucher_manual : String :=
  "32841060cc2b1c721d9e6b9fdf1f9e17b54eaf63b8a407a330fd831dc487b4c9"

/-- The request context as `process_view` leaves it after the storage
lookup on a non-exempt keyed request: flags resolved, key copied and
encoded, existence and prior response recorded. -/
def looked_up_request (request : Request) (key ek : String) (manual : Bool)
    (found : Option Response) : Request :=
  { request with
    meta_idempotency_key := some key
    idempotency_key_done := some true
    idempotency_key_exempt := some false
    idempotency_key_manual := some manual
    use_idempotency_key_manual_override :=
      if manual then some true else request.use_idempotency_key_manual_override
    idempotency_key_encoded_key := some ek
    idempotency_key_exists := some found.isSome
    idempotency_key_response := some found }

/-! ### Concrete sample inputs used by witnesses -/

/-- A plain callback with no idempotency attributes set. -/
def plainCallback : Callback := { idempotency_key_exempt := none, idempotency_key_manual := none, idempotency_key := none }

/-- A callback carrying the manual-override attribute. -/
def manualCallback : Callback := { idempotency_key_exempt := none, idempotency_key_manual := some true, idempotency_key := none }

/-- The idempotency key used throughout the repository's tests. -/
def the_key : String := "7495e32b-709b-4fae-bfd4-2497094bf3fd"

/-- A trivial encoder (identity on the raw key), used to instantiate
encoder-generic theorems at a concrete value. -/
def idEncoder (_method _path key : String) : String := key

/-- A request as it stands at the post-handler phase after `process_view`
populated it: used to instantiate `process_response` theorems. -/
def sampleViewedRequest : Request :=
  { mkRequest "POST" "/create-voucher/" (some the_key) with
    meta_idempotency_key := some the_key
    idempotency_key_done := some true
    idempotency_key_exempt := some false
    idempotency_key_manual := some false
    idempotency_key_encoded_key := some the_key
    idempotency_key_exists := some false
    idempotency_key_response := some none }

/-- A sample recorded response. -/
def sampleStored : Response := { status_code := 201, content := "voucher" }

/-- A sample handler response. -/
def sampleFresh : Response := { status_code := 201, content := "fresh" }

/-! ## Theorems -/

/-- C6: for every request for which `process_view` was never invoked (the
`idempotency_key_done` flag is absent or `False` at the post-handler phase),
`process_response` raises `ImproperlyConfigured` instead of returning the
response, so idempotency enforcement is never silently bypassed. -/
theorem process_response_raises_when_view_skipped
    (storage : Storage) (request : Request) (response : Response)
    (hdone : request.idempotency_key_done.getD false = false) :
    process_response storage request response = .error .improperly_configured := by
  unfold process_response
  rw [if_pos hdone]

theorem process_response_raises_when_view_skipped_witness :
    (mkRequest "POST" "/create-voucher/" none).idempotency_key_done.getD false = false ∧
    process_response [] (mkRequest "POST" "/create-voucher/" none) ⟨201, "v"⟩ =
      .error .improperly_configured :=
  ⟨rfl, process_response_raises_when_view_skipped [] _ _ rfl⟩

/-- C2: with `process_view` having run (done flag set, encoded key
recorded), `process_response` writes the handler's response to storage
under the encoded key if and only if the request is non-exempt, its method
is not safe, and the status code lies in 200..207; any response outside
that class leaves storage unchanged. -/
theorem process_response_stores_iff_2xx
    (storage : Storage) (request : Request) (response : Response) (encoded_key : String)
    (hdone : request.idempotency_key_done = some true)
    (hek : request.idempotency_key_encoded_key = some encoded_key) :
    process_response storage request response =
      .ok ((if request.idempotency_key_exempt.getD true = false ∧
              request.method ∉ SAFE_METHODS ∧
              200 ≤ response.status_code ∧ response.status_code ≤ 207 then
              store_data storage encoded_key response
            else storage), response) ∧
    (¬ (200 ≤ response.status_code ∧ response.status_code ≤ 207) →
      process_response storage request response = .ok (storage, response)) := by
  unfold process_response
  rw [hdone, hek]
  simp only [Option.getD_some]
  constructor
  · split_ifs with h1 h2 h3 <;> simp_all
  · intro hbad
    split_ifs with h1 h2 <;> simp_all

theorem process_response_stores_iff_2xx_witness :
    sampleViewedRequest.idempotency_key_done = some true ∧
    sampleViewedRequest.idempotency_key_encoded_key = some the_key ∧
    (process_response [] sampleViewedRequest sampleFresh =
      .ok ((if sampleViewedRequest.idempotency_key_exempt.getD true = false ∧
              sampleViewedRequest.method ∉ SAFE_METHODS ∧
              200 ≤ sampleFresh.status_code ∧ sampleFresh.status_code ≤ 207 then
              store_data [] the_key sampleFresh
            else []), sampleFresh) ∧
      (¬ (200 ≤ sampleFresh.status_code ∧ sampleFresh.status_code ≤ 207) →
        process_response [] sampleViewedRequest sampleFresh = .ok ([], sampleFresh))) :=
  ⟨rfl, rfl, process_response_stores_iff_2xx [] sampleViewedRequest sampleFresh the_key rfl rfl⟩

/-- C9 counterexample: a route that explicitly opts in via the
manual-override attribute while also carrying `idempotency_key_exempt =
True` is resolved as exempt by the allow-by-default middleware, although
the claim resolves every opted-in route as non-exempt. -/
theorem exempt_flags_manual_optin_still_exempt :
    (exempt_set_flags_from_callback
      { idempotency_key_exempt := some true
        idempotency_key_manual := some true
        idempotency_key := none }) = (true, true) := by
  decide

/-- C9 (amended): in the allow-by-default middleware, an explicit
`idempotency_key_exempt` attribute takes precedence; when it is absent the
request is non-exempt exactly when the route opts in via the
`idempotency_key` attribute or the manual-override flag.  Hence the
request is resolved non-exempt iff `idempotency_key_exempt` is explicitly
`False`, or it is absent and one of the opt-in flags is set. -/
theorem exempt_flags_characterisation (callback : Callback) :
    ((exempt_set_flags_from_callback callback).1 = false ↔
      (callback.idempotency_key_exempt = some false ∨
        (callback.idempotency_key_exempt = none ∧
          (callback.idempotency_key_manual.getD false = true ∨
            callback.idempotency_key.getD false = true)))) ∧
    (exempt_set_flags_from_callback callback).2 =
      callback.idempotency_key_manual.getD false := by
  rcases callback with ⟨_ | (_ | _), _ | (_ | _), _ | (_ | _)⟩ <;> decide

/-- C10: after `process_view` completes for any request, the request
context carries boolean `idempotency_key_exempt` and
`idempotency_key_manual` attributes and `idempotency_key_done` is `True`;
and when it resolved as non-exempt and a key was carried, the context
additionally holds `idempotency_key_encoded_key`, `idempotency_key_exists`
and `idempotency_key_response`. -/
theorem process_view_populates_context
    (set_flags : Callback → Bool × Bool)
    (encode_key : String → String → String → String)
    (settings : Settings) (storage : Storage)
    (request : Request) (callback : Callback) (q : Request) (o : Option Response)
    (hpv : process_view set_flags encode_key settings storage request callback = (q, o)) :
    q.idempotency_key_done = some true ∧
    q.idempotency_key_exempt.isSome ∧
    q.idempotency_key_manual.isSome ∧
    (q.idempotency_key_exempt = some false →
      ∀ key, request.meta_idempotency_key = some key →
        q.idempotency_key_encoded_key.isSome ∧
        q.idempotency_key_exists.isSome ∧
        q.idempotency_key_response.isSome) := by
  simp only [process_view] at hpv
  split at hpv
  · injection hpv with hq ho
    subst hq
    simp
  · revert hpv
    split
    · intro hpv
      injection hpv with hq ho
      subst hq
      simp_all
    · split <;>
        · intro hpv
          revert hpv
          split
          · split
            · intro hpv
              injection hpv with hq ho
              subst hq
              simp
            · intro hpv
              injection hpv with hq ho
              subst hq
              simp
          · intro hpv
            injection hpv with hq ho
            subst hq
            simp

theorem process_view_populates_context_witness :
    process_view set_flags_from_callback idEncoder { CONFLICT_STATUS_CODE := none } []
        (process_request (mkRequest "POST" "/create-voucher/" (some the_key)))
        plainCallback = (sampleViewedRequest, none) ∧
    (sampleViewedRequest.idempotency_key_done = some true ∧
      sampleViewedRequest.idempotency_key_exempt.isSome ∧
      sampleViewedRequest.idempotency_key_manual.isSome ∧
      (sampleViewedRequest.idempotency_key_exempt = some false →
        ∀ key, (process_request
            (mkRequest "POST" "/create-voucher/" (some the_key))).meta_idempotency_key =
            some key →
          sampleViewedRequest.idempotency_key_encoded_key.isSome ∧
          sampleViewedRequest.idempotency_key_exists.isSome ∧
          sampleViewedRequest.idempotency_key_response.isSome)) := by
  have h : process_view set_flags_from_callback idEncoder { CONFLICT_STATUS_CODE := none } []
      (process_request (mkRequest "POST" "/create-voucher/" (some the_key)))
      plainCallback = (sampleViewedRequest, none) := by decide
  exact ⟨h, process_view_populates_context _ _ _ _ _ _ _ _ h⟩

/-- C3: for every non-exempt request carrying no idempotency key,
`process_view` rejects with the framework's 400 bad-request response
immediately: no handler execution, and the outcome and final storage are
the same whatever encoder, storage state and handler are plugged in, with
the encoding/lookup context fields left untouched. -/
theorem missing_key_rejected
    (set_flags : Callback → Bool × Bool) (callback : Callback) (request : Request)
    (hflag : (set_flags callback).1 = false)
    (hm : request.method ∉ SAFE_METHODS)
    (hk1 : request.meta_http_idempotency_key = none)
    (hk2 : request.meta_idempotency_key = none) :
    ∃ q : Request,
      q.idempotency_key_exempt = some false ∧
      q.idempotency_key_encoded_key = request.idempotency_key_encoded_key ∧
      q.idempotency_key_exists = request.idempotency_key_exists ∧
      q.idempotency_key_response = request.idempotency_key_response ∧
      ∀ (encode_key : String → String → String → String) (settings : Settings)
        (storage : Storage) (get_response : Request → Response),
        middleware_call set_flags encode_key settings storage callback get_response request =
          .ok (storage, bad_request q, q) := by
  refine ⟨{ request with
      idempotency_key_done := some true
      idempotency_key_exempt := some false
      idempotency_key_manual := some (set_flags callback).2 }, ?_, ?_, ?_, ?_, ?_⟩
  · rfl
  · rfl
  · rfl
  · rfl
  · intro encode_key settings storage get_response
    simp [middleware_call, process_request, process_view, process_response,
      reject, bad_request, hflag, hm, hk1, hk2]

theorem missing_key_rejected_witness :
    (set_flags_from_callback plainCallback).1 = false ∧
    (mkRequest "POST" "/create-voucher/" none).method ∉ SAFE_METHODS ∧
    (∃ q : Request,
      q.idempotency_key_exempt = some false ∧
      q.idempotency_key_encoded_key =
        (mkRequest "POST" "/create-voucher/" none).idempotency_key_encoded_key ∧
      q.idempotency_key_exists =
        (mkRequest "POST" "/create-voucher/" none).idempotency_key_exists ∧
      q.idempotency_key_response =
        (mkRequest "POST" "/create-voucher/" none).idempotency_key_response ∧
      ∀ (encode_key : String → String → String → String) (settings : Settings)
        (storage : Storage) (get_response : Request → Response),
        middleware_call set_flags_from_callback encode_key settings storage plainCallback
            get_response (mkRequest "POST" "/create-voucher/" none) =
          .ok (storage, bad_request q, q)) :=
  ⟨rfl, by decide,
    missing_key_rejected set_flags_from_callback plainCallback _ rfl (by decide) rfl rfl⟩

/-- C4: every request whose method is safe (GET/HEAD/OPTIONS/TRACE) is
marked exempt by `process_view` regardless of route flags, the handler
runs, and storage is never consulted: the outcome is the same for every
encoder and every storage state, the final storage is the incoming one,
and the encoding/lookup context fields are left untouched. -/
theorem safe_methods_exempt
    (set_flags : Callback → Bool × Bool) (callback : Callback) (settings : Settings)
    (get_response : Request → Response) (request : Request)
    (hm : request.method ∈ SAFE_METHODS) :
    ∃ q : Request,
      q.idempotency_key_exempt = some true ∧
      q.idempotency_key_encoded_key = request.idempotency_key_encoded_key ∧
      q.idempotency_key_exists = request.idempotency_key_exists ∧
      ∀ (encode_key : String → String → String → String) (storage : Storage),
        middleware_call set_flags encode_key settings storage callback get_response request =
          .ok (storage, get_response q, q) := by
  rcases hh : request.meta_http_idempotency_key with _ | key
  · refine ⟨{ request with
        idempotency_key_done := some true
        idempotency_key_exempt := some true
        idempotency_key_manual := some (set_flags callback).2 }, ?_, ?_, ?_, ?_⟩
    · rfl
    · rfl
    · rfl
    · intro encode_key storage
      simp [middleware_call, process_request, process_view, process_response, hm, hh]
  · refine ⟨{ request with
        meta_idempotency_key := some key
        idempotency_key_done := some true
        idempotency_key_exempt := some true
        idempotency_key_manual := some (set_flags callback).2 }, ?_, ?_, ?_, ?_⟩
    · rfl
    · rfl
    · rfl
    · intro encode_key storage
      simp [middleware_call, process_request, process_view, process_response, hm, hh]

theorem safe_methods_exempt_witness :
    (mkRequest "GET" "/get-voucher/" none).method ∈ SAFE_METHODS ∧
    (∃ q : Request,
      q.idempotency_key_exempt = some true ∧
      q.idempotency_key_encoded_key =
        (mkRequest "GET" "/get-voucher/" none).idempotency_key_encoded_key ∧
      q.idempotency_key_exists =
        (mkRequest "GET" "/get-voucher/" none).idempotency_key_exists ∧
      ∀ (encode_key : String → String → String → String) (storage : Storage),
        middleware_call set_flags_from_callback encode_key { CONFLICT_STATUS_CODE := none }
            storage plainCallback (fun _ => sampleFresh)
            (mkRequest "GET" "/get-voucher/" none) =
          .ok (storage, sampleFresh, q)) :=
  ⟨by decide,
    safe_methods_exempt set_flags_from_callback plainCallback _ _ _ (by decide)⟩

/-- C1: for a non-exempt keyed request whose encoded key is already in
storage, on a route without the manual-override flag, `process_view`
short-circuits with the stored response, its status code rewritten to the
configured conflict code; the outcome does not depend on the handler.  The
configured code defaults to 409 when the `CONFLICT_STATUS_CODE` setting is
absent, and an explicit `None` leaves the recorded status unchanged. -/
theorem conflict_short_circuit
    (set_flags : Callback → Bool × Bool) (encode_key : String → String → String → String)
    (settings : Settings) (storage : Storage) (callback : Callback) (request : Request)
    (key ek : String) (r : Response)
    (hflag : set_flags callback = (false, false))
    (hm : request.method ∉ SAFE_METHODS)
    (hkey : request.meta_http_idempotency_key = some key)
    (henc : encode_key request.method request.path key = ek)
    (hret : List.lookup ek storage = some r) :
    (∃ q : Request,
      process_view set_flags encode_key settings storage (process_request request) callback =
        (q, some (apply_conflict settings r)) ∧
      q.idempotency_key_exists = some true ∧
      ∀ get_response₁ get_response₂ : Request → Response,
        middleware_call set_flags encode_key settings storage callback get_response₁ request =
          middleware_call set_flags encode_key settings storage callback get_response₂
            request) ∧
    apply_conflict { CONFLICT_STATUS_CODE := none } r = { r with status_code := 409 } ∧
    apply_conflict { CONFLICT_STATUS_CODE := some none } r = r := by
  refine ⟨⟨{ request with
      meta_idempotency_key := some key
      idempotency_key_done := some true
      idempotency_key_exempt := some false
      idempotency_key_manual := some false
      idempotency_key_encoded_key := some ek
      idempotency_key_exists := some true
      idempotency_key_response := some (some r) }, ?_, rfl, ?_⟩, rfl, rfl⟩
  · simp [process_view, process_request, retrieve_data, hflag, hm, hkey, henc, hret]
  · intro get_response₁ get_response₂
    simp [middleware_call, process_request, process_view, retrieve_data,
      hflag, hm, hkey, henc, hret]

theorem conflict_short_circuit_witness :
    set_flags_from_callback plainCallback = (false, false) ∧
    (∃ q : Request,
      process_view set_flags_from_callback idEncoder { CONFLICT_STATUS_CODE := none }
          [(the_key, sampleStored)]
          (process_request (mkRequest "POST" "/create-voucher/" (some the_key)))
          plainCallback =
        (q, some (apply_conflict { CONFLICT_STATUS_CODE := none } sampleStored)) ∧
      q.idempotency_key_exists = some true ∧
      ∀ get_response₁ get_response₂ : Request → Response,
        middleware_call set_flags_from_callback idEncoder { CONFLICT_STATUS_CODE := none }
            [(the_key, sampleStored)] plainCallback get_response₁
            (mkRequest "POST" "/create-voucher/" (some the_key)) =
          middleware_call set_flags_from_callback idEncoder { CONFLICT_STATUS_CODE := none }
            [(the_key, sampleStored)] plainCallback get_response₂
            (mkRequest "POST" "/create-voucher/" (some the_key))) ∧
    apply_conflict { CONFLICT_STATUS_CODE := none } sampleStored =
      { sampleStored with status_code := 409 } ∧
    apply_conflict { CONFLICT_STATUS_CODE := some none } sampleStored = sampleStored :=
  ⟨rfl, conflict_short_circuit set_flags_from_callback idEncoder _ _ plainCallback _
    the_key the_key sampleStored rfl (by decide) rfl rfl (by decide)⟩

/-- C5: for a non-exempt keyed request on a manual-override route,
`process_view` never short-circuits even when the encoded key already
exists in storage: the view proceeds, the context carries the existence
flag, the retrieved prior response and the manual-override marker, and the
handler's response is the one the middleware returns. -/
theorem manual_override_runs_handler
    (set_flags : Callback → Bool × Bool) (encode_key : String → String → String → String)
    (settings : Settings) (storage : Storage) (callback : Callback) (request : Request)
    (key ek : String) (r : Response)
    (hflag : set_flags callback = (false, true))
    (hm : request.method ∉ SAFE_METHODS)
    (hkey : request.meta_http_idempotency_key = some key)
    (henc : encode_key request.method request.path key = ek)
    (hret : List.lookup ek storage = some r) :
    ∃ q : Request,
      process_view set_flags encode_key settings storage (process_request request) callback =
        (q, none) ∧
      q.idempotency_key_exists = some true ∧
      q.idempotency_key_response = some (some r) ∧
      q.use_idempotency_key_manual_override = some true ∧
      ∀ get_response : Request → Response, ∃ storage₂ : Storage,
        middleware_call set_flags encode_key settings storage callback get_response request =
          .ok (storage₂, get_response q, q) := by
  have hq : process_view set_flags encode_key settings storage (process_request request)
      callback = (looked_up_request request key ek true (some r), none) := by
    simp [process_view, process_request, retrieve_data, looked_up_request,
      hflag, hm, hkey, henc, hret]
  refine ⟨looked_up_request request key ek true (some r), hq, rfl, rfl, rfl, ?_⟩
  intro get_response
  refine ⟨if 200 ≤ (get_response (looked_up_request request key ek true (some r))).status_code ∧
        (get_response (looked_up_request request key ek true (some r))).status_code ≤ 207 then
        store_data storage ek (get_response (looked_up_request request key ek true (some r)))
      else storage, ?_⟩
  simp only [middleware_call]
  rw [hq]
  simp [process_response, looked_up_request, hm]
  split_ifs <;> rfl

theorem manual_override_runs_handler_witness :
    set_flags_from_callback manualCallback = (false, true) ∧
    (∃ q : Request,
      process_view set_flags_from_callback idEncoder { CONFLICT_STATUS_CODE := none }
          [(the_key, sampleStored)]
          (process_request (mkRequest "POST" "/create-voucher-manual/" (some the_key)))
          manualCallback = (q, none) ∧
      q.idempotency_key_exists = some true ∧
      q.idempotency_key_response = some (some sampleStored) ∧
      q.use_idempotency_key_manual_override = some true ∧
      ∀ get_response : Request → Response, ∃ storage₂ : Storage,
        middleware_call set_flags_from_callback idEncoder { CONFLICT_STATUS_CODE := none }
            [(the_key, sampleStored)] manualCallback get_response
            (mkRequest "POST" "/create-voucher-manual/" (some the_key)) =
          .ok (storage₂, get_response q, q)) :=
  ⟨rfl, manual_override_runs_handler set_flags_from_callback idEncoder _ _ manualCallback _
    the_key the_key sampleStored rfl (by decide) rfl rfl (by decide)⟩

theorem process_request_method (request : Request) :
    (process_request request).method = request.method := by
  unfold process_request
  split <;> rfl

theorem process_request_path (request : Request) :
    (process_request request).path = request.path := by
  unfold process_request
  split <;> rfl

theorem process_request_done (request : Request) :
    (process_request request).idempotency_key_done = some false := by
  unfold process_request
  split <;> rfl

attribute [simp] process_request_method process_request_path process_request_done

/-- C7: under the default settings (no `CONFLICT_STATUS_CODE` entry) and a
route without the manual-override flag, once a result is recorded for an
encoded key the middleware never modifies or overwrites it: after any
further request is processed, a lookup of that key still returns the
recorded result unchanged. -/
theorem stored_result_immutable
    (set_flags : Callback → Bool × Bool) (encode_key : String → String → String → String)
    (storage : Storage) (callback : Callback) (get_response : Request → Response)
    (request : Request) (k : String) (r : Response)
    (hret : List.lookup k storage = some r)
    (hmanual : (set_flags callback).2 = false) :
    List.lookup k (storage_after
      (middleware_call set_flags encode_key { CONFLICT_STATUS_CODE := none } storage
        callback get_response request) storage) = some r := by
  rcases hsf : set_flags callback with ⟨e, m⟩
  rw [hsf] at hmanual
  simp only at hmanual
  subst hmanual
  cases e
  · by_cases hmem : request.method ∈ SAFE_METHODS
    · simp [middleware_call, process_view, process_response, storage_after, hsf, hmem, hret]
    · rcases hmeta : (process_request request).meta_idempotency_key with _ | key
      · simp [middleware_call, process_view, process_response, storage_after, reject,
          bad_request, hsf, hmem, hmeta, hret]
      · rcases hl : List.lookup (encode_key request.method request.path key) storage
          with _ | s
        · have hne : k ≠ encode_key request.method request.path key := by
            intro h
            rw [h, hl] at hret
            exact Option.noConfusion hret
          have hq : process_view set_flags encode_key { CONFLICT_STATUS_CODE := none }
              storage (process_request request) callback =
              (looked_up_request (process_request request) key
                (encode_key request.method request.path key) false none, none) := by
            simp [process_view, looked_up_request, retrieve_data, hsf, hmem, hmeta, hl]
          simp only [middleware_call]
          rw [hq]
          simp [process_response, looked_up_request, storage_after, hmem]
          split_ifs <;>
            simp [store_data, List.lookup, hret, beq_eq_false_iff_ne.mpr hne]
        · have hq : process_view set_flags encode_key { CONFLICT_STATUS_CODE := none }
              storage (process_request request) callback =
              (looked_up_request (process_request request) key
                (encode_key request.method request.path key) false (some s),
                some (apply_conflict { CONFLICT_STATUS_CODE := none } s)) := by
            simp [process_view, looked_up_request, retrieve_data, hsf, hmem, hmeta, hl]
          simp only [middleware_call]
          rw [hq]
          simp [process_response, looked_up_request, apply_conflict, get_conflict_code,
            storage_after, hmem, hret]
  · simp [middleware_call, process_view, process_response, storage_after, hsf, hret]

theorem stored_result_immutable_witness :
    List.lookup the_key [(the_key, sampleStored)] = some sampleStored ∧
    List.lookup the_key
      (storage_after
        (middleware_call set_flags_from_callback idEncoder { CONFLICT_STATUS_CODE := none }
          [(the_key, sampleStored)] plainCallback (fun _ => sampleFresh)
          (mkRequest "POST" "/create-voucher/" (some the_key)))
        [(the_key, sampleStored)]) = some sampleStored :=
  ⟨rfl, stored_result_immutable set_flags_from_callback idEncoder [(the_key, sampleStored)]
    plainCallback (fun _ => sampleFresh) (mkRequest "POST" "/create-voucher/" (some the_key))
    the_key sampleStored rfl rfl⟩

set_option maxRecDepth 100000

/-- C8 counterexample: the SHA-256 hex digest of the raw test key alone is
not the encoded identity the repository's tests assert for a request
bearing that key, and the tests assert two different encoded identities
for the same key on two different routes — the encoded identity is not
independent of the request context. -/
theorem default_encoder_not_key_alone :
    spec_basic_key_encoder "POST" "/create-voucher/" the_key ≠
      test_encoded_key_create_voucher ∧
    test_encoded_key_create_voucher ≠ test_encoded_key_create_voucher_manual :=
  ⟨by decide, by decide⟩

/-- C8 (amended): the default encoder produces a fixed 64-character hex
SHA-256 digest deterministically per route, but it is not a function of
the raw key alone — the tests record distinct 64-character digests for the
same key on `/create-voucher/` and `/create-voucher-manual/`.  With the
spec-modelled encoder, a first POST bearing the key returns the handler's
201 and records it; a second POST with the same key returns 409 with the
encoded identity unchanged. -/
theorem default_encoder_scenario :
    (sha256_hex the_key).length = 64 ∧
    test_encoded_key_create_voucher.length = 64 ∧
    test_encoded_key_create_voucher_manual.length = 64 ∧
    (∃ q1 q2 : Request, ∃ storage1 : Storage,
      middleware_call set_flags_from_callback spec_basic_key_encoder
          { CONFLICT_STATUS_CODE := none } [] plainCallback (fun _ => sampleStored)
          (mkRequest "POST" "/create-voucher/" (some the_key)) =
        .ok (storage1, sampleStored, q1) ∧
      sampleStored.status_code = 201 ∧
      middleware_call set_flags_from_callback spec_basic_key_encoder
          { CONFLICT_STATUS_CODE := none } storage1 plainCallback (fun _ => sampleStored)
          (mkRequest "POST" "/create-voucher/" (some the_key)) =
        .ok (storage1, { sampleStored with status_code := 409 }, q2) ∧
      q2.idempotency_key_encoded_key = q1.idempotency_key_encoded_key ∧
      q1.idempotency_key_encoded_key = some (sha256_hex the_key)) := by
  refine ⟨by decide, by decide, by decide,
    looked_up_request (process_request (mkRequest "POST" "/create-voucher/" (some the_key)))
      the_key (sha256_hex the_key) false none,
    looked_up_request (process_request (mkRequest "POST" "/create-voucher/" (some the_key)))
      the_key (sha256_hex the_key) false (some sampleStored),
    store_data [] (sha256_hex the_key) sampleStored,
    by rfl, rfl, by rfl, rfl, rfl⟩
